import Mathlib

/-!
Verification of the node-field simulator of `src/src/details-scene.js`
(the floating document node animation of the details page).

The embedding models the per-frame `animate` loop (pairwise repulsion,
Euler integration, boundary reflection, sway, opacity easing) and the
pointer interaction handlers `onMouseClick` / `closeReadingPane`.
JavaScript numbers are modelled as real numbers; `Math.sqrt` and
`Math.sin` as `Real.sqrt` and `Real.sin`.  The quaternion slerp applied
to a frozen node (a call into the graphics library) is taken as an
arbitrary function parameter, since no property here depends on it.
-/

namespace NodeField

/-- A 3D vector with real components, modelling a THREE.Vector3. -/
@[ext]
structure Vec3 where
  x : ℝ
  y : ℝ
  z : ℝ

/-- Componentwise difference of two vectors. -/
def Vec3.sub (a b : Vec3) : Vec3 := ⟨a.x - b.x, a.y - b.y, a.z - b.z⟩

/-- Componentwise negation. -/
def Vec3.neg (a : Vec3) : Vec3 := ⟨-a.x, -a.y, -a.z⟩

/-- Scalar multiple of a vector. -/
def Vec3.smul (c : ℝ) (a : Vec3) : Vec3 := ⟨c * a.x, c * a.y, c * a.z⟩

/-- Euclidean dot product. -/
def Vec3.dot (a b : Vec3) : ℝ := a.x * b.x + a.y * b.y + a.z * b.z

/-- An orientation quaternion (`group.quaternion`). Its only use in the
simulator is the slerp toward identity applied to a frozen node, which is
modelled by an arbitrary function `Quat → Quat` passed to `animate`. -/
structure Quat where
  qw : ℝ
  qx : ℝ
  qy : ℝ
  qz : ℝ

/-- One floating document node: the `group` created per `.detail-section`,
with the fields of `group.userData` plus the visual state the animation
loop mutates (crystal rotation, orientation, material opacities).
`gid` models the THREE object id `group.id` used as the sway phase offset. -/
structure Node where
  pos : Vec3
  vel : Vec3
  rotationSpeed : ℝ
  originalSectionId : String
  isFrozen : Bool
  gid : ℕ
  rotX : ℝ
  rotY : ℝ
  quat : Quat
  crystalOpacity : ℝ
  coreOpacity : ℝ
  spriteOpacity : ℝ

/-- Minimum separation distance of the collision avoidance loop
(`const minDistance = 9.0`). -/
def minDistance : ℝ := 9.0

/-- `THREE.MathUtils.lerp x y t = x + (y - x) * t`. -/
def lerp (a b t : ℝ) : ℝ := a + (b - a) * t

/-- Euclidean distance between the positions of two nodes, as computed by
the collision-avoidance loop (`Math.sqrt(distSq)`). -/
noncomputable def nodeDist (n1 n2 : Node) : ℝ :=
  Real.sqrt ((n1.pos.x - n2.pos.x) * (n1.pos.x - n2.pos.x) +
             (n1.pos.y - n2.pos.y) * (n1.pos.y - n2.pos.y) +
             (n1.pos.z - n2.pos.z) * (n1.pos.z - n2.pos.z))

/-- The impulse the collision-avoidance loop adds to the velocity of `n1`
on account of the pair `(n1, n2)` (lines 339-358 of details-scene.js):
zero when either node is frozen (`continue`) or when the squared distance
is not below `minDistance * minDistance`; otherwise
`(d / dist) * force` componentwise, with `d = n1.position - n2.position`,
`dist = Math.sqrt(distSq)` and `force = 0.001 * (minDistance - dist)`.
The same pair adds the negated impulse to the velocity of `n2`. -/
noncomputable def pairImpulse (n1 n2 : Node) : Vec3 :=
  if n1.isFrozen || n2.isFrozen then ⟨0, 0, 0⟩
  else
    let dx := n1.pos.x - n2.pos.x
    let dy := n1.pos.y - n2.pos.y
    let dz := n1.pos.z - n2.pos.z
    let distSq := dx * dx + dy * dy + dz * dz
    if distSq < minDistance * minDistance then
      let dist := Real.sqrt distSq
      let force := 0.001 * (minDistance - dist)
      ⟨dx / dist * force, dy / dist * force, dz / dist * force⟩
    else ⟨0, 0, 0⟩

/-- Total repulsion added to the velocity of node `i` by the double loop
`for i; for j = i+1` (lines 334-361).  The loop applies, for each pair
`i < j`, `+pairImpulse (nodes i) (nodes j)` to node `i` and its negation
to node `j`; since `pairImpulse n2 n1 = Vec3.neg (pairImpulse n1 n2)`
(proved below as `pairImpulse_antisymm`) and the loop reads only
positions and frozen flags, which it never writes, the velocity change
of node `i` is the order-independent sum of `pairImpulse` over all
`j ≠ i`. -/
noncomputable def repulsionDelta {n : ℕ} (nodes : Fin n → Node) (i : Fin n) : Vec3 :=
  ⟨∑ j, (if j = i then (0:ℝ) else (pairImpulse (nodes i) (nodes j)).x),
   ∑ j, (if j = i then (0:ℝ) else (pairImpulse (nodes i) (nodes j)).y),
   ∑ j, (if j = i then (0:ℝ) else (pairImpulse (nodes i) (nodes j)).z)⟩

/-- The collision-avoidance pass of `animate`: every node keeps all its
fields except that its velocity accumulates `repulsionDelta`. -/
noncomputable def repulsionPass {n : ℕ} (nodes : Fin n → Node) : Fin n → Node :=
  fun i =>
    { nodes i with
      vel := ⟨(nodes i).vel.x + (repulsionDelta nodes i).x,
              (nodes i).vel.y + (repulsionDelta nodes i).y,
              (nodes i).vel.z + (repulsionDelta nodes i).z⟩ }

/-- The per-node body of the `nodes.forEach` in `animate`
(lines 364-431), applied after the collision-avoidance pass.
`t` is `clock.getElapsedTime()` and `slerpStep` models
`group.quaternion.slerp(identity, 0.1)`.
Both branches first advance the crystal rotation by `rotationSpeed`.
In the drifting branch: position += velocity; then the sequential strict
bounds checks (x against ±14, y against ±7, z against +5 and −10), each
clamping the position component and multiplying the velocity component
by −1; then the sway `position.y += sin(t + gid) * 0.002`; then the
opacities of crystal and sprite ease toward 0.5 and 0.9 with factor 0.1
(the `else if (child.isMesh)` branch of the fade-in loop is dead code,
because the crystal mesh has a material, so the core opacity is not
updated while drifting).  In the frozen branch: the orientation is
slerped and the sprite, crystal and core opacities ease toward
0.05, 0.1 and 0.2. -/
noncomputable def animateNode (t : ℝ) (slerpStep : Quat → Quat) (node : Node) : Node :=
  let n := { node with rotX := node.rotX + node.rotationSpeed,
                       rotY := node.rotY + node.rotationSpeed }
  if n.isFrozen then
    { n with quat := slerpStep n.quat,
             spriteOpacity := lerp n.spriteOpacity 0.05 0.1,
             crystalOpacity := lerp n.crystalOpacity 0.1 0.1,
             coreOpacity := lerp n.coreOpacity 0.2 0.1 }
  else
    let px0 := n.pos.x + n.vel.x
    let py0 := n.pos.y + n.vel.y
    let pz0 := n.pos.z + n.vel.z
    let px1 := if px0 > 14 then (14:ℝ) else px0
    let vx1 := if px0 > 14 then n.vel.x * (-1) else n.vel.x
    let px2 := if px1 < -14 then (-14:ℝ) else px1
    let vx2 := if px1 < -14 then vx1 * (-1) else vx1
    let py1 := if py0 > 7 then (7:ℝ) else py0
    let vy1 := if py0 > 7 then n.vel.y * (-1) else n.vel.y
    let py2 := if py1 < -7 then (-7:ℝ) else py1
    let vy2 := if py1 < -7 then vy1 * (-1) else vy1
    let pz1 := if pz0 > 5 then (5:ℝ) else pz0
    let vz1 := if pz0 > 5 then n.vel.z * (-1) else n.vel.z
    let pz2 := if pz1 < -10 then (-10:ℝ) else pz1
    let vz2 := if pz1 < -10 then vz1 * (-1) else vz1
    let py3 := py2 + Real.sin (t + (n.gid : ℝ)) * 0.002
    { n with pos := ⟨px2, py3, pz2⟩,
             vel := ⟨vx2, vy2, vz2⟩,
             crystalOpacity := lerp n.crystalOpacity 0.5 0.1,
             spriteOpacity := lerp n.spriteOpacity 0.9 0.1 }

/-- The simulator state: the fixed set of node groups and
`activeNodeGroup`, modelled as an optional index into the node set. -/
structure SimState (n : ℕ) where
  nodes : Fin n → Node
  active : Option (Fin n)

/-- One frame of the animation loop restricted to the node field:
the collision-avoidance pass followed by the per-node update.
`activeNodeGroup` is not touched by `animate`. -/
noncomputable def animate {n : ℕ} (t : ℝ) (slerpStep : Quat → Quat) (s : SimState n) :
    SimState n :=
  { s with nodes := fun i => animateNode t slerpStep (repulsionPass s.nodes i) }

/-- A notification sent to the reading pane: show the content of a
section (fill `reading-content` and make the pane visible) or hide the
pane (set opacity 0, pointer events none). -/
inductive Event where
  | showContent (sectionId : String) : Event
  | hideContent : Event
deriving DecidableEq

/-- Outcome of `raycaster.intersectObjects(interactables)` plus the
parent-chain resolution of `onMouseClick`: no intersection at all; an
intersection whose parent chain yields no node group (`targetGroup`
stays null); or a resolved node group. -/
inductive RayHit (n : ℕ) where
  | miss : RayHit n
  | hitUnresolved : RayHit n
  | hitNode (i : Fin n) : RayHit n

/-- `closeReadingPane` (lines 265-274): unfreeze the active node group
if there is one and clear `activeNodeGroup`; the pane-hiding style
assignments run unconditionally, so a hide notification is always
issued. -/
def closeReadingPane {n : ℕ} (s : SimState n) : SimState n × List Event :=
  match s.active with
  | some i =>
      (⟨fun j => if j = i then { s.nodes j with isFrozen := false } else s.nodes j,
        none⟩,
       [Event.hideContent])
  | none => (s, [Event.hideContent])

/-- `onMouseClick` (lines 276-314) after the raycast, parameterised by
`sectionExists`, the model of `document.getElementById(sectionId)` for
the detail sections (`reading-content` always exists, being created at
initialisation).  On a resolved hit distinct from the active group the
old active group is unfrozen, the hit group becomes active and frozen,
and the pane is filled and shown when the source section exists; on a
hit equal to the active group, or an unresolved hit, nothing happens;
on a miss `closeReadingPane` runs. -/
def onMouseClick {n : ℕ} (sectionExists : String → Bool) (h : RayHit n)
    (s : SimState n) : SimState n × List Event :=
  match h with
  | .miss => closeReadingPane s
  | .hitUnresolved => (s, [])
  | .hitNode i =>
      if s.active = some i then (s, [])
      else
        let cleared : Fin n → Node := fun j =>
          match s.active with
          | some k => if j = k then { s.nodes j with isFrozen := false } else s.nodes j
          | none => s.nodes j
        (⟨fun j => if j = i then { cleared j with isFrozen := true } else cleared j,
          some i⟩,
         if sectionExists ((s.nodes i).originalSectionId)
         then [Event.showContent ((s.nodes i).originalSectionId)]
         else [])

/-- An operation of the event loop: a pointer click (with its raycast
outcome) or one animation frame at elapsed time `t`. -/
inductive Op (n : ℕ) where
  | click (h : RayHit n) : Op n
  | frame (t : ℝ) : Op n

/-- Apply one operation to the simulator state. -/
noncomputable def applyOp {n : ℕ} (sectionExists : String → Bool) (slerpStep : Quat → Quat)
    (op : Op n) (s : SimState n) : SimState n :=
  match op with
  | .click h => (onMouseClick sectionExists h s).1
  | .frame t => animate t slerpStep s

/-- Run a sequence of operations from a state. -/
noncomputable def runOps {n : ℕ} (sectionExists : String → Bool) (slerpStep : Quat → Quat) :
    SimState n → List (Op n) → SimState n
  | s, [] => s
  | s, op :: rest =>
      runOps sectionExists slerpStep (applyOp sectionExists slerpStep op s) rest

/-- The selection invariant: a node is frozen exactly when it is the
active node group. -/
def Inv {n : ℕ} (s : SimState n) : Prop :=
  ∀ i, (s.nodes i).isFrozen = true ↔ s.active = some i

/-- The identity function on orientations, used to instantiate the
`slerpStep` parameter in concrete runs. -/
def idSlerp : Quat → Quat := fun q => q

/-- A `document.getElementById` model in which every section id
resolves, as on the details page where the nodes are built from the
existing `.detail-section` elements. -/
def allSections : String → Bool := fun _ => true

/-- Convenience constructor for a node with the given position,
velocity, frozen flag, section id and object id; the remaining visual
fields take their initial values from the scene construction
(crystal wireframe opacity 0.5, core opacity 1, sprite opacity 0.9). -/
noncomputable def mkNode (p v : Vec3) (fr : Bool) (sid : String) (g : ℕ) : Node :=
  { pos := p, vel := v, rotationSpeed := 0.002, originalSectionId := sid,
    isFrozen := fr, gid := g, rotX := 0, rotY := 0, quat := ⟨1, 0, 0, 0⟩,
    crystalOpacity := 0.5, coreOpacity := 1, spriteOpacity := 0.9 }

/-- The three-node configuration of the spec example: nodes at
(0,0,0), (1,0,0) and (10,10,10), at rest and unfrozen. -/
noncomputable def exampleNodes : Fin 3 → Node :=
  ![mkNode ⟨0, 0, 0⟩ ⟨0, 0, 0⟩ false "sec0" 0,
    mkNode ⟨1, 0, 0⟩ ⟨0, 0, 0⟩ false "sec1" 1,
    mkNode ⟨10, 10, 10⟩ ⟨0, 0, 0⟩ false "sec2" 2]

/-- A colinear three-node configuration in which a third node pushes the
first node of a close pair toward the second: nodes at rest at
(0,0,0), (8,0,0) and (-1,0,0), all unfrozen. -/
noncomputable def attractNodes : Fin 3 → Node :=
  ![mkNode ⟨0, 0, 0⟩ ⟨0, 0, 0⟩ false "a" 0,
    mkNode ⟨8, 0, 0⟩ ⟨0, 0, 0⟩ false "b" 1,
    mkNode ⟨-1, 0, 0⟩ ⟨0, 0, 0⟩ false "c" 2]

/-- A single drifting node about to cross the x wall: position
(14.5, 0, 0), velocity (0.3, 0, 0). -/
noncomputable def wallState : SimState 1 :=
  ⟨![mkNode ⟨14.5, 0, 0⟩ ⟨0.3, 0, 0⟩ false "w" 0], none⟩

/-- A single drifting node about to cross the y wall: position
(0, 7.5, 0), velocity (0, 0.3, 0). -/
noncomputable def swayState : SimState 1 :=
  ⟨![mkNode ⟨0, 7.5, 0⟩ ⟨0, 0.3, 0⟩ false "w" 0], none⟩

/-- A single unfrozen node with no active selection. -/
noncomputable def idleState : SimState 1 :=
  ⟨![mkNode ⟨0, 0, 0⟩ ⟨0, 0, 0⟩ false "s0" 0], none⟩

/-- Two nodes of which the second is frozen and active. -/
noncomputable def twoState : SimState 2 :=
  ⟨![mkNode ⟨0, 0, 0⟩ ⟨0, 0, 0⟩ false "sec0" 0,
     mkNode ⟨12, 0, 0⟩ ⟨0, 0, 0⟩ true "sec1" 1], some 1⟩

/-- A single frozen, active node with nonzero position and velocity. -/
noncomputable def frozenState : SimState 1 :=
  ⟨![mkNode ⟨1, 2, 3⟩ ⟨0.1, 0.2, 0.3⟩ true "f" 0], some 0⟩

/-- The state with an empty node set. -/
def emptyState : SimState 0 := ⟨fun i => i.elim0, none⟩

/-! ### Helper lemmas -/

/-- The squared distance of the collision loop is nonnegative. -/
theorem distSq_nonneg (n1 n2 : Node) :
    0 ≤ (n1.pos.x - n2.pos.x) * (n1.pos.x - n2.pos.x) +
        (n1.pos.y - n2.pos.y) * (n1.pos.y - n2.pos.y) +
        (n1.pos.z - n2.pos.z) * (n1.pos.z - n2.pos.z) := by
  have h1 := mul_self_nonneg (n1.pos.x - n2.pos.x)
  have h2 := mul_self_nonneg (n1.pos.y - n2.pos.y)
  have h3 := mul_self_nonneg (n1.pos.z - n2.pos.z)
  linarith

/-- Distance below the threshold is equivalent to the squared-distance
test the source performs. -/
theorem nodeDist_lt_iff (n1 n2 : Node) :
    nodeDist n1 n2 < minDistance ↔
      (n1.pos.x - n2.pos.x) * (n1.pos.x - n2.pos.x) +
      (n1.pos.y - n2.pos.y) * (n1.pos.y - n2.pos.y) +
      (n1.pos.z - n2.pos.z) * (n1.pos.z - n2.pos.z) <
        minDistance * minDistance := by
  unfold nodeDist minDistance
  rw [show (9.0:ℝ) = 9 by norm_num, Real.sqrt_lt' (by norm_num : (0:ℝ) < 9)]
  norm_num

/-- A pair with a frozen left node contributes no impulse. -/
theorem pairImpulse_frozen_left {n1 n2 : Node} (h : n1.isFrozen = true) :
    pairImpulse n1 n2 = ⟨0, 0, 0⟩ := by
  simp [pairImpulse, h]

/-- A pair with a frozen right node contributes no impulse. -/
theorem pairImpulse_frozen_right {n1 n2 : Node} (h : n2.isFrozen = true) :
    pairImpulse n1 n2 = ⟨0, 0, 0⟩ := by
  simp [pairImpulse, h]

/-- A pair at or beyond the threshold contributes no impulse. -/
theorem pairImpulse_far {n1 n2 : Node} (h : minDistance ≤ nodeDist n1 n2) :
    pairImpulse n1 n2 = ⟨0, 0, 0⟩ := by
  have hs : ¬ ((n1.pos.x - n2.pos.x) * (n1.pos.x - n2.pos.x) +
      (n1.pos.y - n2.pos.y) * (n1.pos.y - n2.pos.y) +
      (n1.pos.z - n2.pos.z) * (n1.pos.z - n2.pos.z) <
        minDistance * minDistance) := by
    intro hlt
    exact absurd ((nodeDist_lt_iff n1 n2).mpr hlt) (not_lt.mpr h)
  by_cases hf : (n1.isFrozen || n2.isFrozen) = true
  · simp [pairImpulse, hf]
  · simp only [pairImpulse, hf, if_false, Bool.false_eq_true]
    simp [hs]

/-- The two impulses a pair exchanges are equal and opposite. -/
theorem pairImpulse_antisymm (n1 n2 : Node) :
    pairImpulse n2 n1 = Vec3.neg (pairImpulse n1 n2) := by
  by_cases hf : (n1.isFrozen || n2.isFrozen) = true
  · have hf2 : (n2.isFrozen || n1.isFrozen) = true := by
      rw [Bool.or_comm]; exact hf
    simp [pairImpulse, hf, hf2, Vec3.neg]
  · have hf2 : ¬ ((n2.isFrozen || n1.isFrozen) = true) := by
      rw [Bool.or_comm]; exact hf
    have hd : (n2.pos.x - n1.pos.x) * (n2.pos.x - n1.pos.x) +
        (n2.pos.y - n1.pos.y) * (n2.pos.y - n1.pos.y) +
        (n2.pos.z - n1.pos.z) * (n2.pos.z - n1.pos.z) =
        (n1.pos.x - n2.pos.x) * (n1.pos.x - n2.pos.x) +
        (n1.pos.y - n2.pos.y) * (n1.pos.y - n2.pos.y) +
        (n1.pos.z - n2.pos.z) * (n1.pos.z - n2.pos.z) := by ring
    simp only [pairImpulse, hf, hf2, if_false, Bool.false_eq_true]
    rw [hd]
    by_cases hlt : (n1.pos.x - n2.pos.x) * (n1.pos.x - n2.pos.x) +
        (n1.pos.y - n2.pos.y) * (n1.pos.y - n2.pos.y) +
        (n1.pos.z - n2.pos.z) * (n1.pos.z - n2.pos.z) <
          minDistance * minDistance
    · simp only [hlt, if_true, Vec3.neg, Vec3.mk.injEq]
      refine ⟨by ring, by ring, by ring⟩
    · simp [hlt, Vec3.neg]

/-- A frozen node receives no repulsion at all. -/
theorem repulsionDelta_frozen {n : ℕ} {nodes : Fin n → Node} {i : Fin n}
    (h : (nodes i).isFrozen = true) : repulsionDelta nodes i = ⟨0, 0, 0⟩ := by
  unfold repulsionDelta
  rw [Vec3.mk.injEq]
  refine ⟨?_, ?_, ?_⟩ <;>
    · apply Finset.sum_eq_zero
      intro j _
      by_cases hj : j = i
      · simp [hj]
      · simp [hj, pairImpulse_frozen_left h]

/-- The collision pass changes only the velocity field. -/
theorem repulsionPass_pos {n : ℕ} (nodes : Fin n → Node) (i : Fin n) :
    (repulsionPass nodes i).pos = (nodes i).pos := rfl

/-- The collision pass keeps the frozen flag. -/
theorem repulsionPass_isFrozen {n : ℕ} (nodes : Fin n → Node) (i : Fin n) :
    (repulsionPass nodes i).isFrozen = (nodes i).isFrozen := rfl

/-- The collision pass keeps the section id. -/
theorem repulsionPass_originalSectionId {n : ℕ} (nodes : Fin n → Node) (i : Fin n) :
    (repulsionPass nodes i).originalSectionId = (nodes i).originalSectionId := rfl

/-- The collision pass leaves a frozen node velocity unchanged. -/
theorem repulsionPass_frozen_vel {n : ℕ} {nodes : Fin n → Node} {i : Fin n}
    (h : (nodes i).isFrozen = true) :
    (repulsionPass nodes i).vel = (nodes i).vel := by
  simp [repulsionPass, repulsionDelta_frozen h]

/-- For an unfrozen pair below the threshold the impulse is the vector
from `n2` to `n1` scaled by `0.001 * (minDistance - dist) / dist`. -/
theorem pairImpulse_close {n1 n2 : Node} (h1 : n1.isFrozen = false)
    (h2 : n2.isFrozen = false) (hd : nodeDist n1 n2 < minDistance) :
    pairImpulse n1 n2 =
      Vec3.smul (0.001 * (minDistance - nodeDist n1 n2) / nodeDist n1 n2)
        (Vec3.sub n1.pos n2.pos) := by
  have hlt := (nodeDist_lt_iff n1 n2).mp hd
  simp only [pairImpulse, h1, h2, Bool.or_self, Bool.false_eq_true, if_false]
  rw [if_pos hlt]
  unfold nodeDist Vec3.smul Vec3.sub
  rw [Vec3.mk.injEq]
  refine ⟨by ring, by ring, by ring⟩

/-- With a single node there is no pair, so the collision pass is the
identity. -/
theorem repulsionPass_single (nodes : Fin 1 → Node) (i : Fin 1) :
    repulsionPass nodes i = nodes i := by
  have hd : repulsionDelta nodes i = ⟨0, 0, 0⟩ := by
    fin_cases i
    simp [repulsionDelta, Fin.sum_univ_one]
  simp [repulsionPass, hd]

/-- A drifting node that crosses the +x wall is clamped to 14 and its x
velocity is reversed. -/
theorem animateNode_x_high {t : ℝ} {sl : Quat → Quat} {node : Node}
    (hf : node.isFrozen = false) (hx : node.pos.x + node.vel.x > 14) :
    (animateNode t sl node).pos.x = 14 ∧
    (animateNode t sl node).vel.x = -node.vel.x := by
  simp only [animateNode, hf, Bool.false_eq_true, if_false]
  rw [if_pos hx, if_pos hx]
  norm_num

/-- A drifting node that crosses the -x wall is clamped to -14 and its x
velocity is reversed. -/
theorem animateNode_x_low {t : ℝ} {sl : Quat → Quat} {node : Node}
    (hf : node.isFrozen = false) (hx : node.pos.x + node.vel.x < -14) :
    (animateNode t sl node).pos.x = -14 ∧
    (animateNode t sl node).vel.x = -node.vel.x := by
  have hx2 : ¬ (node.pos.x + node.vel.x > 14) := by
    intro h
    linarith
  simp only [animateNode, hf, Bool.false_eq_true, if_false]
  rw [if_neg hx2, if_neg hx2, if_pos hx, if_pos hx]
  norm_num

/-- A drifting node that crosses the +z wall is clamped to 5 and its z
velocity is reversed. -/
theorem animateNode_z_high {t : ℝ} {sl : Quat → Quat} {node : Node}
    (hf : node.isFrozen = false) (hz : node.pos.z + node.vel.z > 5) :
    (animateNode t sl node).pos.z = 5 ∧
    (animateNode t sl node).vel.z = -node.vel.z := by
  simp only [animateNode, hf, Bool.false_eq_true, if_false]
  rw [if_pos hz, if_pos hz]
  norm_num

/-- A drifting node that crosses the -z wall is clamped to -10 and its z
velocity is reversed. -/
theorem animateNode_z_low {t : ℝ} {sl : Quat → Quat} {node : Node}
    (hf : node.isFrozen = false) (hz : node.pos.z + node.vel.z < -10) :
    (animateNode t sl node).pos.z = -10 ∧
    (animateNode t sl node).vel.z = -node.vel.z := by
  have hz2 : ¬ (node.pos.z + node.vel.z > 5) := by
    intro h
    linarith
  simp only [animateNode, hf, Bool.false_eq_true, if_false]
  rw [if_neg hz2, if_neg hz2, if_pos hz, if_pos hz]
  norm_num

/-- A drifting node that crosses the +y wall has its y velocity
reversed, but its final y position is the bound 7 plus the sway offset
added after the clamp. -/
theorem animateNode_y_high {t : ℝ} {sl : Quat → Quat} {node : Node}
    (hf : node.isFrozen = false) (hy : node.pos.y + node.vel.y > 7) :
    (animateNode t sl node).vel.y = -node.vel.y ∧
    (animateNode t sl node).pos.y =
      7 + Real.sin (t + (node.gid : ℝ)) * 0.002 := by
  simp only [animateNode, hf, Bool.false_eq_true, if_false]
  rw [if_pos hy, if_pos hy]
  norm_num

/-- A drifting node that crosses the -y wall has its y velocity
reversed, and its final y position is the bound -7 plus the sway
offset. -/
theorem animateNode_y_low {t : ℝ} {sl : Quat → Quat} {node : Node}
    (hf : node.isFrozen = false) (hy : node.pos.y + node.vel.y < -7) :
    (animateNode t sl node).vel.y = -node.vel.y ∧
    (animateNode t sl node).pos.y =
      -7 + Real.sin (t + (node.gid : ℝ)) * 0.002 := by
  have hy2 : ¬ (node.pos.y + node.vel.y > 7) := by
    intro h
    linarith
  simp only [animateNode, hf, Bool.false_eq_true, if_false]
  rw [if_neg hy2, if_neg hy2, if_pos hy, if_pos hy]
  norm_num

/-- The per-node update keeps the frozen flag. -/
theorem animateNode_isFrozen (t : ℝ) (slerpStep : Quat → Quat) (node : Node) :
    (animateNode t slerpStep node).isFrozen = node.isFrozen := by
  by_cases h : node.isFrozen <;> simp [animateNode, h]

/-- The per-node update keeps the section id. -/
theorem animateNode_originalSectionId (t : ℝ) (slerpStep : Quat → Quat) (node : Node) :
    (animateNode t slerpStep node).originalSectionId = node.originalSectionId := by
  by_cases h : node.isFrozen <;> simp [animateNode, h]

/-- The per-node update leaves the position of a frozen node unchanged. -/
theorem animateNode_frozen_pos {t : ℝ} {slerpStep : Quat → Quat} {node : Node}
    (h : node.isFrozen = true) :
    (animateNode t slerpStep node).pos = node.pos := by
  simp [animateNode, h]

/-- The per-node update leaves the velocity of a frozen node unchanged. -/
theorem animateNode_frozen_vel {t : ℝ} {slerpStep : Quat → Quat} {node : Node}
    (h : node.isFrozen = true) :
    (animateNode t slerpStep node).vel = node.vel := by
  simp [animateNode, h]

/-- A frame never touches the active selection. -/
theorem animate_active {n : ℕ} (t : ℝ) (slerpStep : Quat → Quat) (s : SimState n) :
    (animate t slerpStep s).active = s.active := rfl

/-- A frame never touches any frozen flag. -/
theorem animate_isFrozen {n : ℕ} (t : ℝ) (slerpStep : Quat → Quat)
    (s : SimState n) (i : Fin n) :
    ((animate t slerpStep s).nodes i).isFrozen = (s.nodes i).isFrozen := by
  show (animateNode t slerpStep (repulsionPass s.nodes i)).isFrozen = _
  rw [animateNode_isFrozen, repulsionPass_isFrozen]

/-- A click on a node that is not the active group makes it active. -/
theorem onMouseClick_new_active {n : ℕ} (se : String → Bool) (s : SimState n)
    (i : Fin n) (hact : ¬ s.active = some i) :
    (onMouseClick se (RayHit.hitNode i) s).1.active = some i := by
  simp [onMouseClick, hact]

/-- A click on a node that is not the active group freezes it. -/
theorem onMouseClick_new_frozen {n : ℕ} (se : String → Bool) (s : SimState n)
    (i : Fin n) (hact : ¬ s.active = some i) :
    ((onMouseClick se (RayHit.hitNode i) s).1.nodes i).isFrozen = true := by
  simp [onMouseClick, hact]

/-- A click on a node that is not the active group unfreezes the
previously active group. -/
theorem onMouseClick_old_unfrozen {n : ℕ} (se : String → Bool) (s : SimState n)
    (i k : Fin n) (hact : ¬ s.active = some i) (hk : s.active = some k) :
    ((onMouseClick se (RayHit.hitNode i) s).1.nodes k).isFrozen = false := by
  have hki : ¬ k = i := by
    intro h
    exact hact (h ▸ hk)
  simp [onMouseClick, hact, hk, hki]

/-- A click on a node that is not the active group leaves every node
other than the hit node and the previously active group unchanged. -/
theorem onMouseClick_other_unchanged {n : ℕ} (se : String → Bool) (s : SimState n)
    (i j : Fin n) (hact : ¬ s.active = some i) (hji : ¬ j = i)
    (hja : ¬ s.active = some j) :
    (onMouseClick se (RayHit.hitNode i) s).1.nodes j = s.nodes j := by
  cases hk : s.active with
  | none => simp [onMouseClick, hact, hk, hji]
  | some k =>
      have hjk : ¬ j = k := by
        intro h
        exact hja (h ▸ hk)
      have hki : ¬ k = i := by
        intro h
        exact hact (h ▸ hk)
      simp [onMouseClick, hact, hk, hji, hjk, hki]

/-- A click on a node that is not the active group emits the show
notification exactly when the source section exists. -/
theorem onMouseClick_new_events {n : ℕ} (se : String → Bool) (s : SimState n)
    (i : Fin n) (hact : ¬ s.active = some i) :
    (onMouseClick se (RayHit.hitNode i) s).2 =
      (if se ((s.nodes i).originalSectionId)
       then [Event.showContent ((s.nodes i).originalSectionId)]
       else []) := by
  simp [onMouseClick, hact]

/-- A click on the node that is already the active group does nothing. -/
theorem onMouseClick_reselect {n : ℕ} (se : String → Bool) (s : SimState n)
    (i : Fin n) (hact : s.active = some i) :
    onMouseClick se (RayHit.hitNode i) s = (s, []) := by
  simp [onMouseClick, hact]

/-- A miss leaves no active group. -/
theorem onMouseClick_miss_active {n : ℕ} (se : String → Bool) (s : SimState n) :
    (onMouseClick se RayHit.miss s).1.active = none := by
  cases hk : s.active with
  | none => simp [onMouseClick, closeReadingPane, hk]
  | some k => simp [onMouseClick, closeReadingPane, hk]

/-- A miss always sends the hide notification. -/
theorem onMouseClick_miss_events {n : ℕ} (se : String → Bool) (s : SimState n) :
    (onMouseClick se RayHit.miss s).2 = [Event.hideContent] := by
  cases hk : s.active with
  | none => simp [onMouseClick, closeReadingPane, hk]
  | some k => simp [onMouseClick, closeReadingPane, hk]

/-- A miss unfreezes the previously active group. -/
theorem onMouseClick_miss_unfrozen {n : ℕ} (se : String → Bool) (s : SimState n)
    (k : Fin n) (hk : s.active = some k) :
    ((onMouseClick se RayHit.miss s).1.nodes k).isFrozen = false := by
  simp [onMouseClick, closeReadingPane, hk]

/-- A miss with no active group leaves the state unchanged. -/
theorem onMouseClick_miss_idle {n : ℕ} (se : String → Bool) (s : SimState n)
    (hk : s.active = none) :
    (onMouseClick se RayHit.miss s).1 = s := by
  simp [onMouseClick, closeReadingPane, hk]

/-- `closeReadingPane` preserves the selection invariant. -/
theorem inv_closeReadingPane {n : ℕ} {s : SimState n} (h : Inv s) :
    Inv (closeReadingPane s).1 := by
  cases hk : s.active with
  | none =>
      intro i
      simp only [closeReadingPane, hk]
      rw [← hk]
      exact h i
  | some k =>
      intro i
      simp only [closeReadingPane, hk]
      by_cases hik : i = k
      · simp [hik]
      · simp only [hik, if_false]
        constructor
        · intro hf
          have := (h i).mp hf
          rw [hk] at this
          exact absurd (Option.some.injEq _ _ ▸ this) (by simpa using fun hh => hik hh.symm)
        · intro hh
          exact absurd hh (by simp)

/-- `onMouseClick` preserves the selection invariant. -/
theorem inv_onMouseClick {n : ℕ} (se : String → Bool) (h : RayHit n)
    {s : SimState n} (hI : Inv s) : Inv (onMouseClick se h s).1 := by
  cases h with
  | miss => exact inv_closeReadingPane hI
  | hitUnresolved => exact hI
  | hitNode i =>
      by_cases hact : s.active = some i
      · rw [onMouseClick_reselect se s i hact]
        exact hI
      · intro j
        by_cases hji : j = i
        · subst hji
          constructor
          · intro _
            exact (onMouseClick_new_active se s j hact).symm ▸ rfl
          · intro _
            exact onMouseClick_new_frozen se s j hact
        · constructor
          · intro hf
            cases hk : s.active with
            | none =>
                have hun : (onMouseClick se (RayHit.hitNode i) s).1.nodes j = s.nodes j :=
                  onMouseClick_other_unchanged se s i j hact hji (by simp [hk])
                rw [hun] at hf
                have := (hI j).mp hf
                rw [hk] at this
                exact absurd this (by simp)
            | some k =>
                by_cases hjk : j = k
                · subst hjk
                  have := onMouseClick_old_unfrozen se s i j hact hk
                  rw [this] at hf
                  exact absurd hf (by simp)
                · have hja : ¬ s.active = some j := by
                    rw [hk]
                    simp
                    intro hh
                    exact hjk hh.symm
                  have hun := onMouseClick_other_unchanged se s i j hact hji hja
                  rw [hun] at hf
                  exact absurd ((hI j).mp hf) hja
          · intro hh
            rw [onMouseClick_new_active se s i hact] at hh
            exact absurd (Option.some.injEq _ _ ▸ hh) (by simpa using fun hhh => hji hhh.symm)

/-- Every operation preserves the selection invariant. -/
theorem inv_applyOp {n : ℕ} (se : String → Bool) (sl : Quat → Quat)
    (op : Op n) {s : SimState n} (hI : Inv s) : Inv (applyOp se sl op s) := by
  cases op with
  | click h => exact inv_onMouseClick se h hI
  | frame t =>
      intro i
      rw [show applyOp se sl (Op.frame t) s = animate t sl s from rfl,
          animate_isFrozen, animate_active]
      exact hI i

/-- Every operation sequence preserves the selection invariant. -/
theorem inv_runOps {n : ℕ} (se : String → Bool) (sl : Quat → Quat)
    (ops : List (Op n)) {s : SimState n} (hI : Inv s) :
    Inv (runOps se sl s ops) := by
  induction ops generalizing s with
  | nil => exact hI
  | cons op rest ih => exact ih (inv_applyOp se sl op hI)

/-! ### Claim theorems -/

/-- C1: starting from the initial state in which every node has
`isFrozen = false` and there is no active selection, after any sequence
of `onMouseClick` and `animate` calls at most one node has
`isFrozen = true`, and that node (if any) is exactly the one referenced
by the active selection. -/
theorem C1_frozen_matches_active {n : ℕ} (se : String → Bool) (sl : Quat → Quat)
    (s0 : SimState n) (ops : List (Op n))
    (h0 : ∀ i, (s0.nodes i).isFrozen = false) (ha : s0.active = none) :
    (∀ i j, ((runOps se sl s0 ops).nodes i).isFrozen = true →
        ((runOps se sl s0 ops).nodes j).isFrozen = true → i = j) ∧
    (∀ i, ((runOps se sl s0 ops).nodes i).isFrozen = true ↔
        (runOps se sl s0 ops).active = some i) := by
  have hI : Inv s0 := by
    intro i
    simp [h0 i, ha]
  have hR := inv_runOps se sl ops hI
  refine ⟨?_, hR⟩
  intro i j hi hj
  have h1 := (hR i).mp hi
  have h2 := (hR j).mp hj
  rw [h1] at h2
  exact Option.some.inj h2

/-- Witness for C1: one click on node 0 followed by one frame, from the
single-node idle state. -/
theorem C1_witness :
    ((runOps allSections idSlerp idleState
        [Op.click (RayHit.hitNode 0), Op.frame 0]).nodes 0).isFrozen = true ↔
      (runOps allSections idSlerp idleState
        [Op.click (RayHit.hitNode 0), Op.frame 0]).active = some 0 :=
  (C1_frozen_matches_active allSections idSlerp idleState
    [Op.click (RayHit.hitNode 0), Op.frame 0]
    (fun i => by fin_cases i <;> rfl) rfl).2 0

/-- C4: when a click resolves to a node distinct from the active group,
the previously frozen node (if any) is unfrozen, the hit node becomes
frozen and active, and exactly one show notification carrying its
section id is issued (the section exists on the details page, where the
nodes are built from the existing sections). -/
theorem C4_select_distinct {n : ℕ} (se : String → Bool) (s : SimState n) (i : Fin n)
    (hact : ¬ s.active = some i)
    (hsec : se ((s.nodes i).originalSectionId) = true) :
    (onMouseClick se (RayHit.hitNode i) s).1.active = some i ∧
    ((onMouseClick se (RayHit.hitNode i) s).1.nodes i).isFrozen = true ∧
    (∀ k, s.active = some k →
      ((onMouseClick se (RayHit.hitNode i) s).1.nodes k).isFrozen = false) ∧
    (onMouseClick se (RayHit.hitNode i) s).2 =
      [Event.showContent ((s.nodes i).originalSectionId)] := by
  refine ⟨onMouseClick_new_active se s i hact, onMouseClick_new_frozen se s i hact,
    fun k hk => onMouseClick_old_unfrozen se s i k hact hk, ?_⟩
  rw [onMouseClick_new_events se s i hact, hsec]
  simp

/-- Witness for C4: clicking node 0 of the two-node state in which
node 1 is frozen and active. -/
theorem C4_witness :
    (onMouseClick allSections (RayHit.hitNode 0) twoState).1.active = some 0 ∧
    ((onMouseClick allSections (RayHit.hitNode 0) twoState).1.nodes 0).isFrozen = true ∧
    ((onMouseClick allSections (RayHit.hitNode 0) twoState).1.nodes 1).isFrozen = false ∧
    (onMouseClick allSections (RayHit.hitNode 0) twoState).2 =
      [Event.showContent "sec0"] := by
  have hact : ¬ twoState.active = some 0 := by
    rw [show twoState.active = some 1 from rfl]
    decide
  have h := C4_select_distinct allSections twoState 0 hact rfl
  exact ⟨h.1, h.2.1, h.2.2.1 1 rfl, h.2.2.2⟩

/-- C5: a click on the node that is already frozen is a no-op (state and
notifications), and selecting the same node twice in a row produces
exactly one show notification in total. -/
theorem C5_reselect_noop {n : ℕ} (se : String → Bool) (i : Fin n) :
    (∀ s : SimState n, s.active = some i →
      onMouseClick se (RayHit.hitNode i) s = (s, [])) ∧
    (∀ s : SimState n, ¬ s.active = some i →
      se ((s.nodes i).originalSectionId) = true →
      (onMouseClick se (RayHit.hitNode i) s).2 ++
        (onMouseClick se (RayHit.hitNode i)
          (onMouseClick se (RayHit.hitNode i) s).1).2 =
        [Event.showContent ((s.nodes i).originalSectionId)]) := by
  constructor
  · exact fun s hact => onMouseClick_reselect se s i hact
  · intro s hact hsec
    rw [onMouseClick_reselect se (onMouseClick se (RayHit.hitNode i) s).1 i
        (onMouseClick_new_active se s i hact),
      onMouseClick_new_events se s i hact, hsec]
    simp

/-- Witness for C5: re-clicking frozen node 1 of the two-node state is a
no-op, and double-clicking node 0 emits one notification in total. -/
theorem C5_witness :
    onMouseClick allSections (RayHit.hitNode 1) twoState = (twoState, []) ∧
    (onMouseClick allSections (RayHit.hitNode 0) twoState).2 ++
      (onMouseClick allSections (RayHit.hitNode 0)
        (onMouseClick allSections (RayHit.hitNode 0) twoState).1).2 =
      [Event.showContent "sec0"] := by
  have hact : ¬ twoState.active = some 0 := by
    rw [show twoState.active = some 1 from rfl]
    decide
  exact ⟨(C5_reselect_noop allSections 1).1 twoState rfl,
    (C5_reselect_noop allSections 0).2 twoState hact rfl⟩

/-- C6 (amended): a click that hits no node proxy unfreezes the frozen
node (if any), clears the active selection and issues the hide
notification; when no node was frozen the node state is unchanged, but
the hide notification is still issued (the source hides the pane
unconditionally, so the hide is idempotent in effect, not absent). -/
theorem C6_miss_behaviour {n : ℕ} (se : String → Bool) (s : SimState n) :
    ((∀ k, s.active = some k →
        ((onMouseClick se RayHit.miss s).1.nodes k).isFrozen = false) ∧
      (onMouseClick se RayHit.miss s).1.active = none ∧
      (onMouseClick se RayHit.miss s).2 = [Event.hideContent]) ∧
    (s.active = none → (onMouseClick se RayHit.miss s).1 = s) :=
  ⟨⟨fun k hk => onMouseClick_miss_unfrozen se s k hk,
    onMouseClick_miss_active se s, onMouseClick_miss_events se s⟩,
   fun hk => onMouseClick_miss_idle se s hk⟩

/-- Witness for C6: a miss on the two-node state unfreezes node 1, and a
miss on the idle state leaves it unchanged. -/
theorem C6_witness :
    ((onMouseClick allSections RayHit.miss twoState).1.nodes 1).isFrozen = false ∧
    (onMouseClick allSections RayHit.miss idleState).1 = idleState :=
  ⟨(C6_miss_behaviour allSections twoState).1.1 1 rfl,
   (C6_miss_behaviour allSections idleState).2 rfl⟩

/-- Counterexample for C6 as stated: in the idle state no node is
frozen, yet a click on empty space still emits a (hide) notification. -/
theorem C6_counterexample :
    (idleState.nodes 0).isFrozen = false ∧
    idleState.active = none ∧
    (onMouseClick allSections RayHit.miss idleState).2 ≠ [] := by
  refine ⟨rfl, rfl, ?_⟩
  rw [onMouseClick_miss_events]
  simp

/-- C8: a frame never modifies the frozen flag or the section id of any
node, and a node that is frozen when the frame runs keeps its position
and velocity unchanged (it is excluded from repulsion, integration,
reflection and sway; only its orientation, rotation and opacities may
change). -/
theorem C8_frame_effect {n : ℕ} (t : ℝ) (sl : Quat → Quat)
    (s : SimState n) (i : Fin n) :
    ((animate t sl s).nodes i).isFrozen = (s.nodes i).isFrozen ∧
    ((animate t sl s).nodes i).originalSectionId = (s.nodes i).originalSectionId ∧
    ((s.nodes i).isFrozen = true →
      ((animate t sl s).nodes i).pos = (s.nodes i).pos ∧
      ((animate t sl s).nodes i).vel = (s.nodes i).vel) := by
  refine ⟨animate_isFrozen t sl s i, ?_, ?_⟩
  · show (animateNode t sl (repulsionPass s.nodes i)).originalSectionId = _
    rw [animateNode_originalSectionId, repulsionPass_originalSectionId]
  · intro hf
    have hf2 : (repulsionPass s.nodes i).isFrozen = true := by
      rw [repulsionPass_isFrozen]
      exact hf
    constructor
    · show (animateNode t sl (repulsionPass s.nodes i)).pos = _
      rw [animateNode_frozen_pos hf2, repulsionPass_pos]
    · show (animateNode t sl (repulsionPass s.nodes i)).vel = _
      rw [animateNode_frozen_vel hf2, repulsionPass_frozen_vel hf]

/-- Witness for C8: a frame on the frozen single-node state keeps the
flag, section id, position and velocity of the node. -/
theorem C8_witness :
    ((animate 0 idSlerp frozenState).nodes 0).isFrozen = (frozenState.nodes 0).isFrozen ∧
    ((animate 0 idSlerp frozenState).nodes 0).pos = (frozenState.nodes 0).pos ∧
    ((animate 0 idSlerp frozenState).nodes 0).vel = (frozenState.nodes 0).vel := by
  have h := C8_frame_effect 0 idSlerp frozenState 0
  exact ⟨h.1, (h.2.2 rfl).1, (h.2.2 rfl).2⟩

/-- C9: the frame and click handlers are total functions of the
embedding, and the inputs the claim names have the stated defined
outcomes: a frame on the empty node set returns the state unchanged, a
pointer miss always yields a state with no selection and the hide
notification, a repeated selection is a no-op, and a hit that resolves
to no node group does nothing. -/
theorem C9_defined_outcomes (se : String → Bool) (sl : Quat → Quat) :
    (∀ (s : SimState 0) (t : ℝ), animate t sl s = s) ∧
    (∀ (n : ℕ) (s : SimState n),
      (onMouseClick se RayHit.miss s).1.active = none ∧
      (onMouseClick se RayHit.miss s).2 = [Event.hideContent]) ∧
    (∀ (n : ℕ) (s : SimState n) (i : Fin n),
      s.active = some i → onMouseClick se (RayHit.hitNode i) s = (s, [])) ∧
    (∀ (n : ℕ) (s : SimState n),
      onMouseClick se RayHit.hitUnresolved s = (s, [])) := by
  refine ⟨?_, fun n s => ⟨onMouseClick_miss_active se s, onMouseClick_miss_events se s⟩,
    fun n s i h => onMouseClick_reselect se s i h, fun n s => rfl⟩
  intro s t
  cases s with
  | mk nd ac =>
      simp only [animate]
      congr 1
      funext i
      exact i.elim0

/-- Witness for C9: the empty state is fixed by a frame, and re-clicking
the frozen node of the two-node state is a no-op. -/
theorem C9_witness :
    animate 0 idSlerp emptyState = emptyState ∧
    onMouseClick allSections (RayHit.hitNode 1) twoState = (twoState, []) :=
  ⟨(C9_defined_outcomes allSections idSlerp).1 emptyState 0,
   (C9_defined_outcomes allSections idSlerp).2.2.1 2 twoState 1 rfl⟩

/-- C10: under the precondition that two interacting non-frozen nodes do
not occupy exactly the same position, the distance used as divisor in
the repulsion computation is strictly positive, so the computation never
divides by zero (and, the embedding being over the reals, every velocity
component produced by a frame is a well-defined real number). -/
theorem C10_divisor_nonzero (n1 n2 : Node) (hpos : n1.pos ≠ n2.pos)
    (h1 : n1.isFrozen = false) (h2 : n2.isFrozen = false)
    (hclose : nodeDist n1 n2 < minDistance) :
    0 < nodeDist n1 n2 ∧ nodeDist n1 n2 ≠ 0 := by
  have hx := mul_self_nonneg (n1.pos.x - n2.pos.x)
  have hy := mul_self_nonneg (n1.pos.y - n2.pos.y)
  have hz := mul_self_nonneg (n1.pos.z - n2.pos.z)
  have hsq : 0 < (n1.pos.x - n2.pos.x) * (n1.pos.x - n2.pos.x) +
      (n1.pos.y - n2.pos.y) * (n1.pos.y - n2.pos.y) +
      (n1.pos.z - n2.pos.z) * (n1.pos.z - n2.pos.z) := by
    rcases lt_or_eq_of_le (distSq_nonneg n1 n2) with h | h
    · exact h
    · exfalso
      apply hpos
      have hxx : (n1.pos.x - n2.pos.x) * (n1.pos.x - n2.pos.x) = 0 := by linarith
      have hyy : (n1.pos.y - n2.pos.y) * (n1.pos.y - n2.pos.y) = 0 := by linarith
      have hzz : (n1.pos.z - n2.pos.z) * (n1.pos.z - n2.pos.z) = 0 := by linarith
      have hx0 := sub_eq_zero.mp (mul_self_eq_zero.mp hxx)
      have hy0 := sub_eq_zero.mp (mul_self_eq_zero.mp hyy)
      have hz0 := sub_eq_zero.mp (mul_self_eq_zero.mp hzz)
      ext
      · exact hx0
      · exact hy0
      · exact hz0
  have hlt : 0 < nodeDist n1 n2 := Real.sqrt_pos.mpr hsq
  exact ⟨hlt, ne_of_gt hlt⟩

/-- Witness for C10: the first two example nodes are one unit apart, so
their divisor is positive. -/
theorem C10_witness :
    0 < nodeDist (exampleNodes 0) (exampleNodes 1) ∧
    nodeDist (exampleNodes 0) (exampleNodes 1) ≠ 0 := by
  have e0 : exampleNodes 0 = mkNode ⟨0, 0, 0⟩ ⟨0, 0, 0⟩ false "sec0" 0 := rfl
  have e1 : exampleNodes 1 = mkNode ⟨1, 0, 0⟩ ⟨0, 0, 0⟩ false "sec1" 1 := rfl
  have hd : nodeDist (exampleNodes 0) (exampleNodes 1) = 1 := by
    rw [nodeDist, e0, e1]
    norm_num [mkNode]
  refine C10_divisor_nonzero (exampleNodes 0) (exampleNodes 1) ?_ rfl rfl ?_
  · rw [e0, e1]
    intro h
    have := congrArg Vec3.x h
    norm_num [mkNode] at this
  · rw [hd, minDistance]
    norm_num

/-- C2: in one pass, an unfrozen pair below the threshold exchanges
equal and opposite impulses proportional to `(threshold - dist)` along
the connecting line; a pair at or beyond the threshold exchanges no
impulse; a pair with a frozen member exchanges no impulse, and a frozen
node receives nothing at all; and on the three example nodes at
(0,0,0), (1,0,0), (10,10,10) the first two receive the mutual impulses
(-0.008, 0, 0) and (0.008, 0, 0) while the third keeps its velocity. -/
theorem C2_pairwise_repulsion :
    (∀ n1 n2 : Node, n1.isFrozen = false → n2.isFrozen = false →
      nodeDist n1 n2 < minDistance →
      pairImpulse n1 n2 =
        Vec3.smul (0.001 * (minDistance - nodeDist n1 n2) / nodeDist n1 n2)
          (Vec3.sub n1.pos n2.pos) ∧
      pairImpulse n2 n1 = Vec3.neg (pairImpulse n1 n2)) ∧
    (∀ n1 n2 : Node, minDistance ≤ nodeDist n1 n2 →
      pairImpulse n1 n2 = ⟨0, 0, 0⟩) ∧
    (∀ n1 n2 : Node, n1.isFrozen = true ∨ n2.isFrozen = true →
      pairImpulse n1 n2 = ⟨0, 0, 0⟩) ∧
    (∀ {n : ℕ} (nodes : Fin n → Node) (i : Fin n),
      (nodes i).isFrozen = true → repulsionPass nodes i = nodes i) ∧
    ((repulsionPass exampleNodes 0).vel = ⟨-0.008, 0, 0⟩ ∧
     (repulsionPass exampleNodes 1).vel = ⟨0.008, 0, 0⟩ ∧
     (repulsionPass exampleNodes 2).vel = (exampleNodes 2).vel) := by
  have e0 : exampleNodes 0 = mkNode ⟨0, 0, 0⟩ ⟨0, 0, 0⟩ false "sec0" 0 := rfl
  have e1 : exampleNodes 1 = mkNode ⟨1, 0, 0⟩ ⟨0, 0, 0⟩ false "sec1" 1 := rfl
  have e2 : exampleNodes 2 = mkNode ⟨10, 10, 10⟩ ⟨0, 0, 0⟩ false "sec2" 2 := rfl
  have d01 : nodeDist (exampleNodes 0) (exampleNodes 1) = 1 := by
    rw [nodeDist, e0, e1]
    simp only [mkNode]
    norm_num
  have i01 : pairImpulse (exampleNodes 0) (exampleNodes 1) = ⟨-0.008, 0, 0⟩ := by
    rw [pairImpulse_close rfl rfl (by rw [d01, minDistance]; norm_num), d01, e0, e1]
    simp only [Vec3.smul, Vec3.sub, mkNode, minDistance, Vec3.mk.injEq]
    norm_num
  have i10 : pairImpulse (exampleNodes 1) (exampleNodes 0) = ⟨0.008, 0, 0⟩ := by
    rw [pairImpulse_antisymm (exampleNodes 0) (exampleNodes 1), i01]
    simp only [Vec3.neg, Vec3.mk.injEq]
    norm_num
  have i02 : pairImpulse (exampleNodes 0) (exampleNodes 2) = ⟨0, 0, 0⟩ := by
    rw [e0, e2]
    simp only [pairImpulse, mkNode, minDistance]
    norm_num
  have i12 : pairImpulse (exampleNodes 1) (exampleNodes 2) = ⟨0, 0, 0⟩ := by
    rw [e1, e2]
    simp only [pairImpulse, mkNode, minDistance]
    norm_num
  have i20 : pairImpulse (exampleNodes 2) (exampleNodes 0) = ⟨0, 0, 0⟩ := by
    rw [pairImpulse_antisymm (exampleNodes 0) (exampleNodes 2), i02]
    simp only [Vec3.neg, Vec3.mk.injEq]
    norm_num
  have i21 : pairImpulse (exampleNodes 2) (exampleNodes 1) = ⟨0, 0, 0⟩ := by
    rw [pairImpulse_antisymm (exampleNodes 1) (exampleNodes 2), i12]
    simp only [Vec3.neg, Vec3.mk.injEq]
    norm_num
  have hδ0 : repulsionDelta exampleNodes 0 = ⟨-0.008, 0, 0⟩ := by
    unfold repulsionDelta
    rw [Fin.sum_univ_three, Fin.sum_univ_three, Fin.sum_univ_three]
    simp [i01, i02]
  have hδ1 : repulsionDelta exampleNodes 1 = ⟨0.008, 0, 0⟩ := by
    unfold repulsionDelta
    rw [Fin.sum_univ_three, Fin.sum_univ_three, Fin.sum_univ_three]
    simp [i10, i12]
  have hδ2 : repulsionDelta exampleNodes 2 = ⟨0, 0, 0⟩ := by
    unfold repulsionDelta
    rw [Fin.sum_univ_three, Fin.sum_univ_three, Fin.sum_univ_three]
    simp [i20, i21]
  refine ⟨fun n1 n2 h1 h2 hd => ⟨pairImpulse_close h1 h2 hd, pairImpulse_antisymm n1 n2⟩,
    fun n1 n2 hd => pairImpulse_far hd,
    fun n1 n2 h => ?_, fun nodes i h => ?_, ?_, ?_, ?_⟩
  · rcases h with h | h
    · exact pairImpulse_frozen_left h
    · exact pairImpulse_frozen_right h
  · simp [repulsionPass, repulsionDelta_frozen h]
  · simp only [repulsionPass, hδ0]
    rw [e0]
    simp only [mkNode, Vec3.mk.injEq]
    norm_num
  · simp only [repulsionPass, hδ1]
    rw [e1]
    simp only [mkNode, Vec3.mk.injEq]
    norm_num
  · simp only [repulsionPass, hδ2]
    rw [e2]
    simp only [mkNode, Vec3.mk.injEq]
    norm_num

/-- Witness for C2: the first clause instantiated at the close example
pair, with both hypotheses discharged concretely. -/
theorem C2_witness :
    pairImpulse (exampleNodes 0) (exampleNodes 1) =
      Vec3.smul (0.001 * (minDistance - nodeDist (exampleNodes 0) (exampleNodes 1)) /
          nodeDist (exampleNodes 0) (exampleNodes 1))
        (Vec3.sub (exampleNodes 0).pos (exampleNodes 1).pos) ∧
    pairImpulse (exampleNodes 1) (exampleNodes 0) =
      Vec3.neg (pairImpulse (exampleNodes 0) (exampleNodes 1)) := by
  have d01 : nodeDist (exampleNodes 0) (exampleNodes 1) = 1 := by
    rw [nodeDist, show exampleNodes 0 = mkNode ⟨0, 0, 0⟩ ⟨0, 0, 0⟩ false "sec0" 0 from rfl,
      show exampleNodes 1 = mkNode ⟨1, 0, 0⟩ ⟨0, 0, 0⟩ false "sec1" 1 from rfl]
    simp only [mkNode]
    norm_num
  exact C2_pairwise_repulsion.1 (exampleNodes 0) (exampleNodes 1) rfl rfl
    (by rw [d01, minDistance]; norm_num)

/-- C3 (amended): for a drifting node, after the frame the x and z
position components that crossed their bounds (±14 for x, +5 and -10
for z) are clamped
exactly to the bound with the velocity component reversed; a crossed y
bound (±7) also reverses the velocity component, but the final y
position is the bound plus the sway offset `sin(t + id) * 0.002`, which
is added after the clamp, so y is in general not exactly at the bound. -/
theorem C3_boundary_reflection (t : ℝ) (sl : Quat → Quat) (node : Node)
    (hf : node.isFrozen = false) :
    (node.pos.x + node.vel.x > 14 →
      (animateNode t sl node).pos.x = 14 ∧
      (animateNode t sl node).vel.x = -node.vel.x) ∧
    (node.pos.x + node.vel.x < -14 →
      (animateNode t sl node).pos.x = -14 ∧
      (animateNode t sl node).vel.x = -node.vel.x) ∧
    (node.pos.z + node.vel.z > 5 →
      (animateNode t sl node).pos.z = 5 ∧
      (animateNode t sl node).vel.z = -node.vel.z) ∧
    (node.pos.z + node.vel.z < -10 →
      (animateNode t sl node).pos.z = -10 ∧
      (animateNode t sl node).vel.z = -node.vel.z) ∧
    (node.pos.y + node.vel.y > 7 →
      (animateNode t sl node).vel.y = -node.vel.y ∧
      (animateNode t sl node).pos.y =
        7 + Real.sin (t + (node.gid : ℝ)) * 0.002) ∧
    (node.pos.y + node.vel.y < -7 →
      (animateNode t sl node).vel.y = -node.vel.y ∧
      (animateNode t sl node).pos.y =
        -7 + Real.sin (t + (node.gid : ℝ)) * 0.002) :=
  ⟨fun hx => animateNode_x_high hf hx, fun hx => animateNode_x_low hf hx,
   fun hz => animateNode_z_high hf hz, fun hz => animateNode_z_low hf hz,
   fun hy => animateNode_y_high hf hy, fun hy => animateNode_y_low hf hy⟩

/-- Witness for C3: the node at (14.5, 0, 0) with velocity (0.3, 0, 0)
ends the frame exactly at x = 14 with x velocity -0.3, as in the spec
example. -/
theorem C3_witness :
    (wallState.nodes 0).pos.x + (wallState.nodes 0).vel.x > 14 ∧
    ((animate 0 idSlerp wallState).nodes 0).pos.x = 14 ∧
    ((animate 0 idSlerp wallState).nodes 0).vel.x = -(0.3 : ℝ) := by
  have hstep : (animate 0 idSlerp wallState).nodes 0 =
      animateNode 0 idSlerp (wallState.nodes 0) := by
    show animateNode 0 idSlerp (repulsionPass wallState.nodes 0) = _
    rw [repulsionPass_single]
  have hgt : (wallState.nodes 0).pos.x + (wallState.nodes 0).vel.x > 14 := by
    show (14.5 : ℝ) + 0.3 > 14
    norm_num
  have h := (C3_boundary_reflection 0 idSlerp (wallState.nodes 0) rfl).1 hgt
  refine ⟨hgt, ?_, ?_⟩
  · rw [hstep]
    exact h.1
  · rw [hstep]
    exact h.2

/-- Counterexample for C3 as stated: the node at (0, 7.5, 0) with
velocity (0, 0.3, 0) crosses the y bound, but at elapsed time pi/2 its
final y position is 7.002, not exactly the bound 7, because the sway
offset is added after the clamp. -/
theorem C3_counterexample :
    (swayState.nodes 0).pos.y + (swayState.nodes 0).vel.y > 7 ∧
    ((animate (Real.pi / 2) idSlerp swayState).nodes 0).pos.y ≠ 7 := by
  have hstep : (animate (Real.pi / 2) idSlerp swayState).nodes 0 =
      animateNode (Real.pi / 2) idSlerp (swayState.nodes 0) := by
    show animateNode (Real.pi / 2) idSlerp (repulsionPass swayState.nodes 0) = _
    rw [repulsionPass_single]
  have hgt : (swayState.nodes 0).pos.y + (swayState.nodes 0).vel.y > 7 := by
    show (7.5 : ℝ) + 0.3 > 7
    norm_num
  have h := @animateNode_y_high (Real.pi / 2) idSlerp (swayState.nodes 0) rfl hgt
  refine ⟨hgt, ?_⟩
  rw [hstep, h.2]
  rw [show ((swayState.nodes 0).gid : ℝ) = 0 from by norm_num [swayState, mkNode],
    add_zero, Real.sin_pi_div_two]
  norm_num

/-- C7 (amended): the pair of impulses any two nodes exchange in the
collision pass never attracts: the dot product of the exchanged relative
impulse with the relative position is nonnegative, for every pair. -/
theorem C7_pair_never_attracts (n1 n2 : Node) :
    0 ≤ Vec3.dot (Vec3.sub (pairImpulse n1 n2) (pairImpulse n2 n1))
        (Vec3.sub n1.pos n2.pos) := by
  rw [pairImpulse_antisymm n1 n2]
  by_cases hf : (n1.isFrozen || n2.isFrozen) = true
  · rcases Bool.or_eq_true_iff.mp hf with h | h
    · rw [pairImpulse_frozen_left h]
      simp [Vec3.neg, Vec3.sub, Vec3.dot]
    · rw [pairImpulse_frozen_right h]
      simp [Vec3.neg, Vec3.sub, Vec3.dot]
  · have h1 : n1.isFrozen = false := by
      cases hq : n1.isFrozen with
      | false => rfl
      | true => exact absurd (by rw [hq]; simp) hf
    have h2 : n2.isFrozen = false := by
      cases hq : n2.isFrozen with
      | false => rfl
      | true => exact absurd (by rw [hq]; simp) hf
    by_cases hd : nodeDist n1 n2 < minDistance
    · rw [pairImpulse_close h1 h2 hd]
      have hc : 0 ≤ 0.001 * (minDistance - nodeDist n1 n2) / nodeDist n1 n2 := by
        apply div_nonneg
        · have hlt : nodeDist n1 n2 ≤ minDistance := le_of_lt hd
          nlinarith
        · exact Real.sqrt_nonneg _
      have hs := mul_nonneg hc (distSq_nonneg n1 n2)
      simp only [Vec3.smul, Vec3.neg, Vec3.sub, Vec3.dot]
      nlinarith [hs]
    · rw [pairImpulse_far (le_of_not_lt hd)]
      simp [Vec3.neg, Vec3.sub, Vec3.dot]

/-- Counterexample for C7 as stated: in the colinear configuration
(0,0,0), (8,0,0), (-1,0,0), the pair of the first two nodes is unfrozen
and within the threshold, yet the third node pushes the first toward
the second hard enough that the net change of their relative velocity
in the collision pass points toward each other (dot product -0.048). -/
theorem C7_counterexample :
    (attractNodes 0).isFrozen = false ∧
    (attractNodes 1).isFrozen = false ∧
    nodeDist (attractNodes 0) (attractNodes 1) < minDistance ∧
    Vec3.dot
      (Vec3.sub
        (Vec3.sub (repulsionPass attractNodes 0).vel
          (repulsionPass attractNodes 1).vel)
        (Vec3.sub (attractNodes 0).vel (attractNodes 1).vel))
      (Vec3.sub (attractNodes 0).pos (attractNodes 1).pos) < 0 := by
  have a0 : attractNodes 0 = mkNode ⟨0, 0, 0⟩ ⟨0, 0, 0⟩ false "a" 0 := rfl
  have a1 : attractNodes 1 = mkNode ⟨8, 0, 0⟩ ⟨0, 0, 0⟩ false "b" 1 := rfl
  have a2 : attractNodes 2 = mkNode ⟨-1, 0, 0⟩ ⟨0, 0, 0⟩ false "c" 2 := rfl
  have dAB : nodeDist (attractNodes 0) (attractNodes 1) = 8 := by
    rw [nodeDist, a0, a1]
    simp only [mkNode]
    norm_num
    rw [show (64:ℝ) = 8 ^ 2 by norm_num,
      Real.sqrt_sq (by norm_num : (0:ℝ) ≤ 8)]
  have dAC : nodeDist (attractNodes 0) (attractNodes 2) = 1 := by
    rw [nodeDist, a0, a2]
    simp only [mkNode]
    norm_num
  have iAB : pairImpulse (attractNodes 0) (attractNodes 1) = ⟨-0.001, 0, 0⟩ := by
    rw [pairImpulse_close rfl rfl (by rw [dAB, minDistance]; norm_num), dAB, a0, a1]
    simp only [Vec3.smul, Vec3.sub, mkNode, minDistance, Vec3.mk.injEq]
    norm_num
  have iBA : pairImpulse (attractNodes 1) (attractNodes 0) = ⟨0.001, 0, 0⟩ := by
    rw [pairImpulse_antisymm (attractNodes 0) (attractNodes 1), iAB]
    simp only [Vec3.neg, Vec3.mk.injEq]
    norm_num
  have iAC : pairImpulse (attractNodes 0) (attractNodes 2) = ⟨0.008, 0, 0⟩ := by
    rw [pairImpulse_close rfl rfl (by rw [dAC, minDistance]; norm_num), dAC, a0, a2]
    simp only [Vec3.smul, Vec3.sub, mkNode, minDistance, Vec3.mk.injEq]
    norm_num
  have iBC : pairImpulse (attractNodes 1) (attractNodes 2) = ⟨0, 0, 0⟩ := by
    rw [a1, a2]
    simp only [pairImpulse, mkNode, minDistance]
    norm_num
  have hδ0 : repulsionDelta attractNodes 0 = ⟨0.007, 0, 0⟩ := by
    unfold repulsionDelta
    rw [Fin.sum_univ_three, Fin.sum_univ_three, Fin.sum_univ_three]
    simp [iAB, iAC]
    norm_num
  have hδ1 : repulsionDelta attractNodes 1 = ⟨0.001, 0, 0⟩ := by
    unfold repulsionDelta
    rw [Fin.sum_univ_three, Fin.sum_univ_three, Fin.sum_univ_three]
    simp [iBA, iBC]
  refine ⟨rfl, rfl, by rw [dAB, minDistance]; norm_num, ?_⟩
  simp only [repulsionPass, hδ0, hδ1]
  rw [a0, a1]
  simp only [Vec3.sub, Vec3.dot, mkNode]
  norm_num

end NodeField
